import Mathlib

/-!
Shallow embedding of the K-12 district analytics POC
(`src/generate_data.py`, `src/quality_checks.py`, `src/analysis.py`).

Tables are lists of records; numeric table values are rationals
(exact arithmetic stands in for the float arithmetic of the source);
missing values (pandas NaN / Python None) are `Option.none`.
The numpy generator `np.random.default_rng(seed)` is modelled as a
deterministic pseudo-random stream fully determined by the seed: every
claim below depends only on determinism and on the range/support of each
draw, never on the concrete distribution, so the stream's mixing function
is a simple LCG stand-in for PCG64.
-/

set_option linter.unusedVariables false

namespace K12

/-- Modelled from `np.random.default_rng`: deterministic generator state. -/
structure Rng where
  state : Nat
deriving Repr, DecidableEq

/-- One raw draw: a 64-bit LCG step standing in for PCG64 output. -/
def Rng.next (r : Rng) : Nat × Rng :=
  let s := (6364136223846793005 * r.state + 1442695040888963407) % (2 ^ 64)
  (s, ⟨s⟩)

/-- Seeded construction, `np.random.default_rng(cfg.seed)`. -/
def Rng.ofSeed (seed : Nat) : Rng := ⟨seed % (2 ^ 64)⟩

/-- Uniform natural below `n` (used for index/choice draws). -/
def Rng.randNat (r : Rng) (n : Nat) : Nat × Rng :=
  ((r.next).1 % n, (r.next).2)

/-- Modelled from `rng.random()`: a rational in `[0, 1)`. -/
def Rng.randomQ (r : Rng) : ℚ × Rng :=
  (((r.randNat 1000000).1 : ℚ) / 1000000, (r.randNat 1000000).2)

/-- Modelled from `rng.integers(low, high)`: integer in `[low, high)`. -/
def Rng.integersIn (r : Rng) (low high : ℤ) : ℤ × Rng :=
  (low + ((r.randNat (high - low).toNat).1 : ℤ), (r.randNat (high - low).toNat).2)

/-- Modelled from `rng.uniform(low, high)`: `low + (high-low)*frac`,
exactly numpy's formula (no validation that `low ≤ high`). -/
def Rng.uniformQ (r : Rng) (low high : ℚ) : ℚ × Rng :=
  (low + (high - low) * (r.randomQ).1, (r.randomQ).2)

/-- Modelled from `rng.normal(mu, sd)`: a draw of mean-`mu` scale-`sd`
shape; the Gaussian shape is abstracted (claims never depend on it),
determinism and the `mu + sd * z` structure are preserved. -/
def Rng.normalQ (r : Rng) (mu sd : ℚ) : ℚ × Rng :=
  (mu + sd * (2 * (r.randomQ).1 - 1), (r.randomQ).2)

/-- Categorical pick by cumulative probabilities, the model of
`rng.choice(values, p=probs)`; `dflt` is returned when the weights are
exhausted (unreachable when the weights sum to 1). -/
def pickCum (f : ℚ) (dflt : α) : List (ℚ × α) → α
  | [] => dflt
  | (p, a) :: rest => if f < p then a else pickCum (f - p) dflt rest

/-- Modelled from `rng.choice(values, p=probs)`. -/
def Rng.choiceW (r : Rng) (xs : List (ℚ × α)) (dflt : α) : α × Rng :=
  (pickCum (r.randomQ).1 dflt xs, (r.randomQ).2)

/-- Modelled from uniform `rng.choice(values)` on a nonempty pool. -/
def Rng.choiceU (r : Rng) (xs : List α) (dflt : α) : α × Rng :=
  (xs.getD (r.randNat xs.length).1 dflt, (r.randNat xs.length).2)

/-- A stream of `n` draws, threading the generator state (numpy's
vectorised draws `rng.xxx(size=n)` consume the stream element-wise). -/
def genList (f : Rng → α × Rng) : Nat → Rng → List α × Rng
  | 0, r => ([], r)
  | n + 1, r => ((f r).1 :: (genList f n (f r).2).1, (genList f n (f r).2).2)

/-- Round to nearest integer with ties to even, numpy's rounding rule. -/
def roundEven (x : ℚ) : ℤ :=
  if x - ⌊x⌋ < 1 / 2 then ⌊x⌋
  else if 1 / 2 < x - ⌊x⌋ then ⌊x⌋ + 1
  else if 2 ∣ ⌊x⌋ then ⌊x⌋ else ⌊x⌋ + 1

/-- Modelled from `np.round(x, 2)`. -/
def round2 (x : ℚ) : ℚ := (roundEven (100 * x) : ℚ) / 100

/-- Generator configuration (`GenConfig` dataclass). -/
structure GenConfig where
  seed : Nat := 7
  n_districts : Nat := 12
  n_schools : Nat := 90
  n_students : Nat := 42000
  n_educators : Nat := 5200
  school_year : ℤ := 2025
deriving Repr, DecidableEq

/-- A row of the schools table. -/
structure SchoolRow where
  school_id : ℤ
  district_id : ℤ
  school_name : String
  school_level : String
  urbanicity : String
deriving Repr, DecidableEq

/-- A row of the students table (`students.csv` carries no school_id;
the bridge does). -/
structure StudentRow where
  student_id : ℤ
  birth_year : ℤ
  grade_level : ℤ
  gender : String
  race_ethnicity : String
  frpl_flag : ℤ
  ell_flag : ℤ
  iep_flag : ℤ
deriving Repr, DecidableEq

/-- A row of the student–school bridge table. -/
structure BridgeRow where
  student_id : ℤ
  school_id : ℤ
deriving Repr, DecidableEq

/-- A row of the educators table. -/
structure EducatorRow where
  educator_id : ℤ
  role : String
  certification : String
  years_experience : ℤ
  hire_year : ℤ
deriving Repr, DecidableEq

/-- A row of the staffing assignments table. -/
structure StaffingRow where
  school_id : ℤ
  educator_id : ℤ
  school_year : ℤ
  fte : ℚ
  subject_area : String
deriving Repr, DecidableEq

/-- A row of the assessments table. -/
structure AssessmentRow where
  student_id : ℤ
  school_id : ℤ
  school_year : ℤ
  term : String
  subject : String
  scale_score : ℚ
  proficient_flag : ℤ
deriving Repr, DecidableEq

/-- The six tables produced by one generator run. -/
structure Tables where
  schools : List SchoolRow
  students : List StudentRow
  student_school : List BridgeRow
  educators : List EducatorRow
  staffing : List StaffingRow
  assessments : List AssessmentRow
deriving Repr, DecidableEq

instance : Inhabited StudentRow := ⟨⟨0, 0, 0, "", "", 0, 0, 0⟩⟩

/-! ### Generator (`src/generate_data.py`, `generate_all`) -/

/-- School level distribution of line 34 of `generate_data.py`. -/
def levelDist : List (ℚ × String) :=
  [(1 / 2, "elementary"), (28 / 100, "middle"), (22 / 100, "high")]

/-- Urbanicity distribution of line 35. -/
def urbanDist : List (ℚ × String) :=
  [(34 / 100, "urban"), (46 / 100, "suburban"), (20 / 100, "rural")]

/-- Schools block (lines 33–42): district, level, urbanicity draws then
the schools frame with ids `1001..1000+n` and names `School i`. -/
def genSchools (cfg : GenConfig) (r : Rng) : List SchoolRow × Rng :=
  let districts := genList (fun r => r.integersIn 1 ((cfg.n_districts : ℤ) + 1)) cfg.n_schools r
  let levels := genList (fun r => r.choiceW levelDist "high") cfg.n_schools districts.2
  let urbans := genList (fun r => r.choiceW urbanDist "rural") cfg.n_schools levels.2
  ((List.range cfg.n_schools).map (fun (i : ℕ) =>
      ⟨1001 + (i : ℤ), districts.1.getD i 0, "School " ++ toString (i + 1),
       levels.1.getD i "", urbans.1.getD i ""⟩), urbans.2)

/-- Gender distribution of line 49. -/
def genderDist : List (ℚ × String) := [(49 / 100, "F"), (49 / 100, "M"), (2 / 100, "X")]

/-- Race/ethnicity distribution of lines 50–54. -/
def raceDist : List (ℚ × String) :=
  [(49 / 100, "White"), (22 / 100, "Black"), (17 / 100, "Hispanic"),
   (6 / 100, "Asian"), (4 / 100, "Multi"), (2 / 100, "Other")]

/-- Students block (lines 45–64): grade uniform on 3–12, Bernoulli flags,
gender/race categoricals, then birth years `integers(2007, 2016)`. -/
def genStudents (cfg : GenConfig) (r : Rng) : List StudentRow × Rng :=
  let grades :=
    genList (fun r => ((3 : ℤ) + ((r.randNat 10).1 : ℤ), (r.randNat 10).2)) cfg.n_students r
  let frpl :=
    genList (fun r => ((if (r.randomQ).1 < 42 / 100 then (1 : ℤ) else 0), (r.randomQ).2))
      cfg.n_students grades.2
  let ell :=
    genList (fun r => ((if (r.randomQ).1 < 12 / 100 then (1 : ℤ) else 0), (r.randomQ).2))
      cfg.n_students frpl.2
  let iep :=
    genList (fun r => ((if (r.randomQ).1 < 14 / 100 then (1 : ℤ) else 0), (r.randomQ).2))
      cfg.n_students ell.2
  let genders := genList (fun r => r.choiceW genderDist "X") cfg.n_students iep.2
  let races := genList (fun r => r.choiceW raceDist "Other") cfg.n_students genders.2
  let births := genList (fun r => r.integersIn 2007 2016) cfg.n_students races.2
  ((List.range cfg.n_students).map (fun (i : ℕ) =>
      ⟨2000001 + (i : ℤ), births.1.getD i 0, grades.1.getD i 0, genders.1.getD i "",
       races.1.getD i "", frpl.1.getD i 0, ell.1.getD i 0, iep.1.getD i 0⟩), births.2)

/-- The grade-band membership masks of lines 69–73
(`between(3,5)` / `between(6,8)` / `between(9,12)`). -/
def bandMask (lvl : String) (g : ℤ) : Bool :=
  if lvl = "elementary" then decide (3 ≤ g ∧ g ≤ 5)
  else if lvl = "middle" then decide (6 ≤ g ∧ g ≤ 8)
  else if lvl = "high" then decide (9 ≤ g ∧ g ≤ 12)
  else false

/-- The grade band of the spec (§4.1): 3–5 elementary, 6–8 middle,
9–12 high; used to state the level-compatibility invariant. -/
def bandName (g : ℤ) : String :=
  if 3 ≤ g ∧ g ≤ 5 then "elementary"
  else if 6 ≤ g ∧ g ≤ 8 then "middle"
  else if 9 ≤ g ∧ g ≤ 12 then "high"
  else ""

/-- One `rng.choice(eligible, size=len(idx))` draw (line 78) assigning a
uniformly chosen eligible school to each listed student index; `none`
models numpy's `ValueError` on an empty pool with samples requested
(an empty pool with zero samples requested succeeds, as in numpy). -/
def drawFor (eligible : List ℤ) : List Nat → Rng → Option (List (Nat × ℤ) × Rng)
  | [], r => some ([], r)
  | i :: rest, r =>
    if eligible.isEmpty then none
    else
      let kr := r.randNat eligible.length
      match drawFor eligible rest kr.2 with
      | none => none
      | some pr => some ((i, eligible.getD kr.1 0) :: pr.1, pr.2)

/-- One iteration of the level loop in lines 75–78. -/
def assignLevel (schools : List SchoolRow) (students : List StudentRow) (lvl : String)
    (r : Rng) : Option (List (Nat × ℤ) × Rng) :=
  let eligible := (schools.filter (fun s => s.school_level == lvl)).map (fun s => s.school_id)
  let idx := (List.range students.length).filter
    (fun i => bandMask lvl ((students.getD i default).grade_level))
  drawFor eligible idx r

/-- Student→school assignment (lines 66–79), level-major as in the source. -/
def assignStudents (schools : List SchoolRow) (students : List StudentRow) (r : Rng) :
    Option (List (Nat × ℤ) × Rng) :=
  match assignLevel schools students "elementary" r with
  | none => none
  | some pe =>
    match assignLevel schools students "middle" pe.2 with
    | none => none
    | some pm =>
      match assignLevel schools students "high" pm.2 with
      | none => none
      | some ph => some (pe.1 ++ pm.1 ++ ph.1, ph.2)

/-- Role distribution of line 82. -/
def roleDist : List (ℚ × String) :=
  [(83 / 100, "teacher"), (10 / 100, "counselor"), (7 / 100, "admin")]

/-- Certification distribution of line 83. -/
def certDist : List (ℚ × String) :=
  [(82 / 100, "standard"), (14 / 100, "provisional"), (4 / 100, "none")]

/-- Educators block (lines 82–92): role/cert categoricals, clipped rounded
normal experience, derived clipped hire year, ids `3000001..`. -/
def genEducators (cfg : GenConfig) (r : Rng) : List EducatorRow × Rng :=
  let roles := genList (fun r => r.choiceW roleDist "admin") cfg.n_educators r
  let certs := genList (fun r => r.choiceW certDist "none") cfg.n_educators roles.2
  let years :=
    genList (fun r =>
        (min 35 (max 0 (roundEven (r.normalQ (17 / 2) 6).1)), (r.normalQ (17 / 2) 6).2))
      cfg.n_educators certs.2
  ((List.range cfg.n_educators).map (fun (i : ℕ) =>
      let ye := years.1.getD i 0
      ⟨3000001 + (i : ℤ), roles.1.getD i "", certs.1.getD i "", ye,
       min cfg.school_year (max 1995 (cfg.school_year - ye))⟩), years.2)

/-- `rng.choice(school_ids, size=n, replace=False)` of line 100; `none`
models numpy's error when fewer schools than samples exist. -/
def sampleNoReplace : Nat → List ℤ → Rng → Option (List ℤ × Rng)
  | 0, _, r => some ([], r)
  | n + 1, xs, r =>
    if xs.isEmpty then none
    else
      let kr := r.randNat xs.length
      match sampleNoReplace n (xs.eraseIdx kr.1) kr.2 with
      | none => none
      | some yr => some (xs.getD kr.1 0 :: yr.1, yr.2)

/-- Subject pool of line 97. -/
def subjectPool : List String :=
  ["math", "ela", "science", "social_studies", "sped", "counseling", "admin"]

/-- Inner FTE loop of lines 101–112: the last assignment receives the
remaining budget, earlier ones a 2-decimal rounding of
`uniform(0.3, remaining)`; the budget is decremented and floored at 0. -/
def fteLoop (eid sy : ℤ) (nAssign : Nat) :
    List ℤ → Nat → ℚ → Rng → List StaffingRow × Rng
  | [], _, _, r => ([], r)
  | sid :: rest, j, remaining, r =>
    let fr : ℚ × Rng :=
      if j = nAssign - 1 then (remaining, r)
      else (round2 (r.uniformQ (3 / 10) remaining).1, (r.uniformQ (3 / 10) remaining).2)
    let sj := fr.2.choiceU subjectPool "math"
    let rest2 := fteLoop eid sy nAssign rest (j + 1) (max 0 (remaining - fr.1)) sj.2
    (⟨sid, eid, sy, fr.1, sj.1⟩ :: rest2.1, rest2.2)

/-- One educator's staffing rows (lines 99–112): 1 school with
probability 0.88 else 2, sampled without replacement. -/
def genEducatorStaffing (schoolIds : List ℤ) (sy : ℤ) (e : EducatorRow) (r : Rng) :
    Option (List StaffingRow × Rng) :=
  match sampleNoReplace (if (r.randomQ).1 < 88 / 100 then 1 else 2) schoolIds (r.randomQ).2 with
  | none => none
  | some sr =>
    some (fteLoop e.educator_id sy (if (r.randomQ).1 < 88 / 100 then 1 else 2) sr.1 0 1 sr.2)

/-- The per-educator staffing loop of lines 96–113, in educator order. -/
def genStaffing (schoolIds : List ℤ) (sy : ℤ) :
    List EducatorRow → Rng → Option (List StaffingRow × Rng)
  | [], r => some ([], r)
  | e :: rest, r =>
    match genEducatorStaffing schoolIds sy e r with
    | none => none
    | some rowsR =>
      match genStaffing schoolIds sy rest rowsR.2 with
      | none => none
      | some restR => some (rowsR.1 ++ restR.1, restR.2)

/-- Assessments block (lines 115–151): latent school effect, grade
baseline, subgroup disadvantage, shared and subject noise; scores are
rounded to 2 decimals, proficiency compares the unrounded score with the
grade threshold `255 + 6.5*(grade-3)`. -/
def genAssessments (cfg : GenConfig) (schools : List SchoolRow) (students : List StudentRow)
    (schoolOf : List ℤ) (r : Rng) : List AssessmentRow × Rng :=
  let effects := genList (fun r => r.normalQ 0 8) cfg.n_schools r
  let schoolEffect : List (ℤ × ℚ) := (schools.map (fun s => s.school_id)).zip effects.1
  let noise := genList (fun r => r.normalQ 0 18) cfg.n_students effects.2
  let elaX := genList (fun r => r.normalQ 0 3) cfg.n_students noise.2
  let mathX := genList (fun r => r.normalQ 0 3) cfg.n_students elaX.2
  let scoreOf := fun (extra : List ℚ) (i : Nat) =>
    let st := students.getD i default
    (250 : ℚ) + ((st.grade_level : ℚ) - 3) * (15 / 2) +
      ((st.frpl_flag : ℚ) * (-6) + (st.ell_flag : ℚ) * (-8) + (st.iep_flag : ℚ) * (-10)) +
      (schoolEffect.lookup (schoolOf.getD i 0)).getD 0 + noise.1.getD i 0 + extra.getD i 0
  let mkRows : String → List ℚ → List AssessmentRow := fun subj extra =>
    (List.range cfg.n_students).map (fun i =>
      let st := students.getD i default
      let sc := scoreOf extra i
      ⟨st.student_id, schoolOf.getD i 0, cfg.school_year, "spring", subj, round2 sc,
       if 255 + ((st.grade_level : ℚ) - 3) * (13 / 2) ≤ sc then (1 : ℤ) else 0⟩)
  (mkRows "ela" elaX.1 ++ mkRows "math" mathX.1, mathX.2)

/-- `generate_all` (lines 28–159): the whole seeded pipeline producing the
six tables; `none` models the numpy errors raised when a student band has
no school of its level or an educator draws more schools than exist. -/
def generate_all (cfg : GenConfig) : Option Tables :=
  let r0 := Rng.ofSeed cfg.seed
  let sc := genSchools cfg r0
  let st := genStudents cfg sc.2
  match assignStudents sc.1 st.1 st.2 with
  | none => none
  | some pr =>
    let schoolOf := (List.range cfg.n_students).map (fun i => (pr.1.lookup i).getD 0)
    let bridge :=
      List.zipWith (fun (s : StudentRow) sid => BridgeRow.mk s.student_id sid) st.1 schoolOf
    let ed := genEducators cfg pr.2
    match genStaffing (sc.1.map (fun s => s.school_id)) cfg.school_year ed.1 ed.2 with
    | none => none
    | some stf =>
      some ⟨sc.1, st.1, bridge, ed.1, stf.1,
        (genAssessments cfg sc.1 st.1 schoolOf stf.2).1⟩

/-! ### Quality checker (`src/quality_checks.py`) -/

/-- One entry of the `checks` list: name, passed flag and the structured
detail dictionary (numeric values; `none` is Python `None`/NaN). -/
structure Check where
  name : String
  passed : Bool
  detail : List (String × Option ℚ)
deriving Repr, DecidableEq

/-- The aggregate `summary` dictionary. -/
structure QCSummary where
  total_checks : Nat
  passed_checks : Nat
  failed_checks : Nat
deriving Repr, DecidableEq

/-- The full result dictionary of `run_quality_checks`. -/
structure QCResults where
  checks : List Check
  summary : QCSummary
deriving Repr, DecidableEq

/-- `series.duplicated().sum()`: rows beyond the first occurrence. -/
def dupCount (xs : List ℤ) : Nat := xs.length - xs.dedup.length

/-- Python/NumPy bitwise `~` applied to an integer scalar. -/
def bitNot (n : ℤ) : ℤ := -n - 1

/-- `series.isin(other).sum()`: how many elements lie in `other`. -/
def isinCount (xs other : List ℤ) : Nat := (xs.filter (fun x => other.contains x)).length

/-- `staffing.groupby("educator_id")["fte"].sum()` (the values). -/
def fteByEducator (staffing : List StaffingRow) : List ℚ :=
  ((staffing.map (fun s => s.educator_id)).dedup).map
    (fun k => ((staffing.filter (fun s => s.educator_id == k)).map (fun s => s.fte)).sum)

/-- The merge of staffing with educator roles restricted to teachers
(lines 89–90 of the checker, lines 38–39 of the analysis): a left merge
emits one row per matching educator row, an unmatched staffing row keeps
a missing role and is dropped by the `== "teacher"` filter. -/
def teacherStaffing (staffing : List StaffingRow) (educators : List EducatorRow) :
    List StaffingRow :=
  (staffing.map (fun s =>
    ((educators.filter (fun e => e.educator_id == s.educator_id)).filter
      (fun e => e.role == "teacher")).map (fun _ => s))).flatten

/-- Per-school summed teacher FTE (`groupby("school_id")["fte"].sum()`). -/
def teacherFteBySchool (staffing : List StaffingRow) (educators : List EducatorRow) :
    List (ℤ × ℚ) :=
  let t := teacherStaffing staffing educators
  ((t.map (fun s => s.school_id)).dedup).map
    (fun k => (k, ((t.filter (fun s => s.school_id == k)).map (fun s => s.fte)).sum))

/-- Per-school distinct-student count from the bridge
(`groupby("school_id")["student_id"].nunique()`). -/
def studentCountBySchool (bridge : List BridgeRow) : List (ℤ × ℚ) :=
  ((bridge.map (fun b => b.school_id)).dedup).map
    (fun k => (k,
      (((bridge.filter (fun b => b.school_id == k)).map (fun b => b.student_id)).dedup.length : ℚ)))

/-- The index-aligned ratio series of checker line 91: keys are the index
union of the two series, a key missing on either side or a zero
denominator yields a missing value (`replace(0, nan)` then NaN
propagation; the `inf` replacement can then never fire). -/
def ratioBySchool (bridge : List BridgeRow) (staffing : List StaffingRow)
    (educators : List EducatorRow) : List (ℤ × Option ℚ) :=
  let sc := studentCountBySchool bridge
  let tf := teacherFteBySchool staffing educators
  let keys := ((sc.map Prod.fst) ++ (tf.map Prod.fst)).dedup
  keys.map (fun k =>
    (k, match sc.lookup k, tf.lookup k with
        | some c, some f => if f = 0 then none else some (c / f)
        | _, _ => none))

/-- `run_quality_checks` (quality_checks.py lines 12–106): the fixed
battery of nine checks and the aggregate summary. The referential
integrity details reproduce the source exactly: `~` binds after
`.isin(...).sum()`, so the stored count is the bitwise complement of the
number of PRESENT references. -/
def run_quality_checks (schools : List SchoolRow) (students : List StudentRow)
    (student_school : List BridgeRow) (educators : List EducatorRow)
    (staffing : List StaffingRow) (assessments : List AssessmentRow) : QCResults :=
  let studentIds := students.map (fun s => s.student_id)
  let educatorIds := educators.map (fun e => e.educator_id)
  let schoolIds := schools.map (fun s => s.school_id)
  let c1 : Check :=
    ⟨"students_unique_id", dupCount studentIds == 0,
     [("duplicate_count", some (dupCount studentIds : ℚ))]⟩
  let c2 : Check :=
    ⟨"educators_unique_id", dupCount educatorIds == 0,
     [("duplicate_count", some (dupCount educatorIds : ℚ))]⟩
  let c3 : Check :=
    ⟨"schools_unique_id", dupCount schoolIds == 0,
     [("duplicate_count", some (dupCount schoolIds : ℚ))]⟩
  let missing_school_in_map : ℤ :=
    bitNot (isinCount (student_school.map (fun b => b.school_id)) schoolIds : ℤ)
  let c4 : Check :=
    ⟨"student_school_valid_school_id", missing_school_in_map == (0 : ℤ),
     [("missing_school_refs", some (missing_school_in_map : ℚ))]⟩
  let missing_student_in_map : ℤ :=
    bitNot (isinCount (student_school.map (fun b => b.student_id)) studentIds : ℤ)
  let c5 : Check :=
    ⟨"student_school_valid_student_id", missing_student_in_map == (0 : ℤ),
     [("missing_student_refs", some (missing_student_in_map : ℚ))]⟩
  let fteSums := fteByEducator staffing
  let over1 := fteSums.filter (fun q => decide ((105 : ℚ) / 100 < q))
  let c6 : Check :=
    ⟨"educator_total_fte_leq_1_05", over1.length == 0,
     [("violations", some (over1.length : ℚ)), ("max_fte", fteSums.max?)]⟩
  let teachers := educators.filter (fun e => e.role == "teacher")
  let uncert := (teachers.filter (fun e => e.certification == "none")).length
  let uncert_rate : ℚ := (uncert : ℚ) / ((max 1 teachers.length : ℕ) : ℚ)
  let c7 : Check :=
    ⟨"teacher_certification_none_rate_leq_0_02", decide (uncert_rate ≤ 2 / 100),
     [("teacher_count", some (teachers.length : ℚ)), ("none_cert_count", some (uncert : ℚ)),
      ("none_cert_rate", some uncert_rate)]⟩
  let spring := assessments.filter (fun a => a.term == "spring")
  let springStudents := (spring.map (fun a => a.student_id)).dedup
  let missing_subj := (springStudents.filter (fun sid =>
      decide (((spring.filter (fun a => a.student_id == sid)).map
        (fun a => a.subject)).dedup.length < 2))).length
  let c8 : Check :=
    ⟨"assessment_coverage_two_subjects_spring", missing_subj == 0,
     [("students_missing_subject", some (missing_subj : ℚ))]⟩
  let ratioVals := (ratioBySchool student_school staffing educators).filterMap Prod.snd
  let extreme := ratioVals.filter (fun q => decide ((35 : ℚ) < q))
  let c9 : Check :=
    ⟨"students_per_teacher_fte_leq_35", extreme.length == 0,
     [("extreme_schools", some (extreme.length : ℚ)), ("max_ratio", ratioVals.max?)]⟩
  let checks := [c1, c2, c3, c4, c5, c6, c7, c8, c9]
  ⟨checks,
   ⟨checks.length, (checks.filter (fun c => c.passed)).length,
    (checks.filter (fun c => !c.passed)).length⟩⟩

/-! ### Analysis (`src/analysis.py`) -/

/-- A row of the `proficiency_by_subgroup` output. -/
structure GapRow where
  subject : String
  group : String
  proficiency_group_1 : Option ℚ
  proficiency_group_0 : Option ℚ
  gap_group0_minus_group1 : Option ℚ
deriving Repr, DecidableEq

/-- Pandas `.mean()`: `none` (NaN) on an empty selection. -/
def meanQ (xs : List ℚ) : Option ℚ :=
  if xs.isEmpty then none else some (xs.sum / (xs.length : ℚ))

/-- The left merge `assessments.merge(students, on="student_id")` of
analysis line 17: one row per (assessment, matching student); an
assessment without a matching student keeps one row with missing
student columns. -/
def mergedRows (assessments : List AssessmentRow) (students : List StudentRow) :
    List (AssessmentRow × Option StudentRow) :=
  (assessments.map (fun a =>
    match students.filter (fun st => st.student_id == a.student_id) with
    | [] => [(a, none)]
    | m => m.map (fun st => (a, some st)))).flatten

/-- The subgroup columns iterated on analysis line 23. -/
def subgroupCols : List (String × (StudentRow → ℤ)) :=
  [("FRPL", fun st => st.frpl_flag), ("ELL", fun st => st.ell_flag),
   ("IEP", fun st => st.iep_flag)]

/-- `proficiency_by_subgroup` (analysis.py lines 16–33): spring rows,
2 subjects × 3 subgroup flags, mean proficiency of the flag==1 and
flag==0 populations and their difference. -/
def proficiency_by_subgroup (assessments : List AssessmentRow) (students : List StudentRow) :
    List GapRow :=
  let df := (mergedRows assessments students).filter (fun p => p.fst.term == "spring")
  ((["ela", "math"]).map (fun subj =>
    let d := df.filter (fun p => p.fst.subject == subj)
    subgroupCols.map (fun gc =>
      let p1 := meanQ ((d.filter (fun p => (p.snd.map gc.snd) == some 1)).map
        (fun p => (p.fst.proficient_flag : ℚ)))
      let p0 := meanQ ((d.filter (fun p => (p.snd.map gc.snd) == some 0)).map
        (fun p => (p.fst.proficient_flag : ℚ)))
      GapRow.mk subj gc.fst p1 p0 (p0.bind (fun a => p1.map (fun b => a - b)))))).flatten

/-- A row of the `staffing_ratio_table` output. -/
structure RatioRow where
  school_id : ℤ
  n_students : Option ℚ
  teacher_fte : Option ℚ
  students_per_teacher_fte : Option ℚ
deriving Repr, DecidableEq

/-- `staffing_ratio_table` (analysis.py lines 36–42): the outer concat of
the per-school student count and teacher FTE series, with the ratio
column guarded by `replace(0, np.nan)`. -/
def staffing_ratio_table (student_school : List BridgeRow) (staffing : List StaffingRow)
    (educators : List EducatorRow) : List RatioRow :=
  let sc := studentCountBySchool student_school
  let tf := teacherFteBySchool staffing educators
  let keys := ((sc.map Prod.fst) ++ (tf.map Prod.fst)).dedup
  keys.map (fun k =>
    let c := sc.lookup k
    let f := tf.lookup k
    ⟨k, c, f,
     match c, f with
     | some cv, some fv => if fv = 0 then none else some (cv / fv)
     | _, _ => none⟩)

/-- A row of the `ratio_vs_proficiency` output table. -/
structure RatioProfRow where
  school_id : ℤ
  n_students : Option ℚ
  teacher_fte : Option ℚ
  students_per_teacher_fte : Option ℚ
  avg_proficiency : Option ℚ
deriving Repr, DecidableEq

/-- School-level mean spring proficiency
(`spring.groupby("school_id")["proficient_flag"].mean()`, line 52). -/
def schoolProf (assessments : List AssessmentRow) : List (ℤ × ℚ) :=
  let spring := assessments.filter (fun a => a.term == "spring")
  ((spring.map (fun a => a.school_id)).dedup).map (fun k =>
    (k, ((spring.filter (fun a => a.school_id == k)).map
          (fun a => (a.proficient_flag : ℚ))).sum /
        (((spring.filter (fun a => a.school_id == k)).length : ℕ) : ℚ)))

/-- `np.corrcoef(x, y)[0, 1]` as a real number; `none` models the NaN
that numpy returns when one sample variance is zero. -/
noncomputable def pearson (xs ys : List ℚ) : Option ℝ :=
  let n : ℚ := (xs.length : ℚ)
  let mx : ℚ := xs.sum / n
  let my : ℚ := ys.sum / n
  let vx : ℚ := (xs.map (fun x => (x - mx) ^ 2)).sum
  let vy : ℚ := (ys.map (fun y => (y - my) ^ 2)).sum
  let cov : ℚ := ((xs.zip ys).map (fun p => (p.fst - mx) * (p.snd - my))).sum
  if vx = 0 ∨ vy = 0 then none
  else some ((cov : ℝ) / (Real.sqrt (vx : ℝ) * Real.sqrt (vy : ℝ)))

/-- `ratio_vs_proficiency` (analysis.py lines 45–58): the joined table
plus the correlation scalar the source stores in `df.attrs`; the scalar
is `none` (Python `None`) both when fewer than 3 valid rows exist and
when the computed correlation is NaN (`corr == corr` fails). -/
noncomputable def ratio_vs_proficiency (ratio_tbl : List RatioRow)
    (assessments : List AssessmentRow) (student_school : List BridgeRow) :
    List RatioProfRow × Option ℝ :=
  let sp := schoolProf assessments
  let df := ratio_tbl.map (fun rr =>
    RatioProfRow.mk rr.school_id rr.n_students rr.teacher_fte rr.students_per_teacher_fte
      (sp.lookup rr.school_id))
  let valid := df.filter (fun p => p.students_per_teacher_fte.isSome && p.avg_proficiency.isSome)
  let corr : Option ℝ :=
    if 2 < valid.length then
      pearson (valid.map (fun p => p.students_per_teacher_fte.getD 0))
        (valid.map (fun p => p.avg_proficiency.getD 0))
    else none
  (df, corr)

/-! ### Concrete data for witnesses and counterexample evaluations -/

instance : Inhabited Tables := ⟨⟨[], [], [], [], [], []⟩⟩

/-- A one-school table used in concrete checker evaluations. -/
def schoolsW : List SchoolRow := [⟨1001, 1, "School 1", "elementary", "urban"⟩]

/-- Two students, one FRPL and one not. -/
def studentsW : List StudentRow :=
  [⟨2000001, 2010, 4, "F", "White", 1, 0, 0⟩, ⟨2000002, 2010, 4, "M", "White", 0, 0, 0⟩]

/-- A bridge whose every reference resolves (both students, the school). -/
def bridgeW : List BridgeRow := [⟨2000001, 1001⟩, ⟨2000002, 1001⟩]

/-- A small generator configuration on which the whole pipeline runs. -/
def cfgW : GenConfig := ⟨0, 2, 6, 5, 2, 2025⟩

/-- A bridge putting `n` distinct students in school 1001. -/
def bridgeB (n : Nat) : List BridgeRow := (List.range n).map (fun i => ⟨(i : ℤ), 1001⟩)

/-- One teacher with 4.0 FTE at school 1001. -/
def staffW : List StaffingRow := [⟨1001, 9, 2025, 4, "math"⟩]

/-- The educator behind `staffW`. -/
def educW : List EducatorRow := [⟨9, "teacher", "standard", 5, 2020⟩]

/-- An educators table containing no teacher. -/
def educAdminW : List EducatorRow := [⟨9, "admin", "none", 0, 2020⟩]

/-- Spring ELA/Math assessments for the two students of `studentsW`
(FRPL student not proficient, the other proficient). -/
def assessW : List AssessmentRow :=
  [⟨2000001, 1001, 2025, "spring", "ela", 250, 0⟩,
   ⟨2000002, 1001, 2025, "spring", "ela", 270, 1⟩,
   ⟨2000001, 1001, 2025, "spring", "math", 250, 0⟩,
   ⟨2000002, 1001, 2025, "spring", "math", 270, 1⟩]

/-- A ratio table with only two fully populated rows (fewer than 3 valid
rows once no proficiency data joins). -/
def ratioTblW : List RatioRow :=
  [⟨1001, some 10, some 2, some 5⟩, ⟨1002, some 20, some 2, some 10⟩]

/-! ### Theorems -/

/-- Counting a predicate and its negation partitions a list. -/
theorem length_filter_add_length_filter_not (p : α → Bool) (l : List α) :
    (l.filter p).length + (l.filter (fun a => !p a)).length = l.length := by
  induction l with
  | nil => rfl
  | cons a t ih =>
    cases hp : p a <;> simp [List.filter, hp] <;> omega

/-- C8: on any six input tables `run_quality_checks` returns normally
(it is a total function here), every check of the fixed battery
contributes exactly one entry — the checks list carries exactly the nine
check names in battery order — and the summary satisfies
`total_checks = length checks = passed_checks + failed_checks`.
(The checker is read-only by construction: it only consumes its
arguments and builds a fresh result value.) -/
theorem C8_checker_total_and_summary_consistent (schools : List SchoolRow)
    (students : List StudentRow) (student_school : List BridgeRow)
    (educators : List EducatorRow) (staffing : List StaffingRow)
    (assessments : List AssessmentRow) :
    (run_quality_checks schools students student_school educators staffing assessments).checks.map
        Check.name =
      ["students_unique_id", "educators_unique_id", "schools_unique_id",
       "student_school_valid_school_id", "student_school_valid_student_id",
       "educator_total_fte_leq_1_05", "teacher_certification_none_rate_leq_0_02",
       "assessment_coverage_two_subjects_spring", "students_per_teacher_fte_leq_35"] ∧
    (run_quality_checks schools students student_school educators staffing
          assessments).summary.total_checks =
      (run_quality_checks schools students student_school educators staffing
          assessments).checks.length ∧
    (run_quality_checks schools students student_school educators staffing
          assessments).summary.total_checks =
      (run_quality_checks schools students student_school educators staffing
            assessments).summary.passed_checks +
        (run_quality_checks schools students student_school educators staffing
            assessments).summary.failed_checks := by
  refine ⟨rfl, rfl, ?_⟩
  exact (length_filter_add_length_filter_not (fun c : Check => c.passed) _).symm

/-- C10: with no `role == "teacher"` educator, the certification check
divides by `max 1 0 = 1`, reports a rate of exactly `0` and passes. -/
theorem C10_cert_check_no_teachers (schools : List SchoolRow) (students : List StudentRow)
    (student_school : List BridgeRow) (educators : List EducatorRow)
    (staffing : List StaffingRow) (assessments : List AssessmentRow)
    (h : educators.filter (fun e => e.role == "teacher") = []) :
    (run_quality_checks schools students student_school educators staffing
        assessments).checks[6]? =
      some ⟨"teacher_certification_none_rate_leq_0_02", true,
        [("teacher_count", some 0), ("none_cert_count", some 0), ("none_cert_rate", some 0)]⟩ := by
  simp only [run_quality_checks, h]
  norm_num

/-- Witness for C10 at a concrete educators table with no teacher. -/
theorem C10_cert_check_no_teachers_witness :
    (run_quality_checks [] [] [] educAdminW [] []).checks[6]? =
      some ⟨"teacher_certification_none_rate_leq_0_02", true,
        [("teacher_count", some 0), ("none_cert_count", some 0), ("none_cert_rate", some 0)]⟩ :=
  C10_cert_check_no_teachers [] [] [] educAdminW [] [] (by decide)

/-- C1 (code bug evaluation): on tables whose bridge references all
resolve — zero missing school refs and zero missing student refs, as the
first two conjuncts compute — the two referential-integrity checks still
report `passed = false`, and their details hold `-3 = ~2`, the Python
bitwise complement of the count of PRESENT references (2 bridge rows),
not the count of missing references (0). -/
theorem C1_referential_checks_always_fail_eval :
    (bridgeW.filter (fun b =>
        !((schoolsW.map (fun s => s.school_id)).contains b.school_id))).length = 0 ∧
    (bridgeW.filter (fun b =>
        !((studentsW.map (fun s => s.student_id)).contains b.student_id))).length = 0 ∧
    (run_quality_checks schoolsW studentsW bridgeW [] [] []).checks[3]? =
      some ⟨"student_school_valid_school_id", false, [("missing_school_refs", some (-3))]⟩ ∧
    (run_quality_checks schoolsW studentsW bridgeW [] [] []).checks[4]? =
      some ⟨"student_school_valid_student_id", false, [("missing_student_refs", some (-3))]⟩ := by
  decide

set_option maxRecDepth 1000000 in
unseal Rat.mul Rat.inv Rat.add Rat.sub in
/-- C2 (code bug evaluation): the generator run at `cfgW` succeeds, every
bridge row references an existing student and an existing school (second
conjunct, computed), yet the two referential-integrity checks on the
generated tables report `passed = false` because of the `~` precedence
slip in the checker. -/
theorem C2_generated_refs_valid_but_checks_fail_eval :
    (generate_all cfgW).isSome = true ∧
    (((generate_all cfgW).getD default).student_school.all (fun b =>
      ((((generate_all cfgW).getD default).students.map (fun s => s.student_id)).contains
          b.student_id &&
        (((generate_all cfgW).getD default).schools.map (fun s => s.school_id)).contains
          b.school_id))) = true ∧
    ((run_quality_checks ((generate_all cfgW).getD default).schools
        ((generate_all cfgW).getD default).students
        ((generate_all cfgW).getD default).student_school
        ((generate_all cfgW).getD default).educators
        ((generate_all cfgW).getD default).staffing
        ((generate_all cfgW).getD default).assessments).checks[3]?).map Check.passed =
      some false ∧
    ((run_quality_checks ((generate_all cfgW).getD default).schools
        ((generate_all cfgW).getD default).students
        ((generate_all cfgW).getD default).student_school
        ((generate_all cfgW).getD default).educators
        ((generate_all cfgW).getD default).staffing
        ((generate_all cfgW).getD default).assessments).checks[4]?).map Check.passed =
      some false := by
  decide

/-- C5: for any assessments and students input, `proficiency_by_subgroup`
returns exactly 6 rows (2 subjects × 3 subgroup flags) and in every row
the stored gap equals `proficiency_group_0 − proficiency_group_1`
exactly (with NaN propagation: the gap is missing iff a side is). -/
theorem C5_gap_table_six_rows_exact_identity (assessments : List AssessmentRow)
    (students : List StudentRow) :
    (proficiency_by_subgroup assessments students).length = 6 ∧
    ∀ row ∈ proficiency_by_subgroup assessments students,
      row.gap_group0_minus_group1 =
        row.proficiency_group_0.bind (fun a => row.proficiency_group_1.map (fun b => a - b)) := by
  constructor
  · simp [proficiency_by_subgroup, subgroupCols]
  · intro row hrow
    simp only [proficiency_by_subgroup] at hrow
    obtain ⟨l, hl, hrl⟩ := List.mem_flatten.1 hrow
    obtain ⟨subj, hsubj, rfl⟩ := List.mem_map.1 hl
    obtain ⟨gc, hgc, rfl⟩ := List.mem_map.1 hrl
    rfl

unseal Rat.mul Rat.inv Rat.add Rat.sub in
/-- Witness for C5 on concrete data: 6 rows, and the `ela`/`FRPL` row has
`gap = some 1 = some (1 - 0)`. -/
theorem C5_gap_table_six_rows_exact_identity_witness :
    (proficiency_by_subgroup assessW studentsW).length = 6 ∧
    (GapRow.mk "ela" "FRPL" (some 0) (some 1) (some 1)).gap_group0_minus_group1 =
      (GapRow.mk "ela" "FRPL" (some 0) (some 1) (some 1)).proficiency_group_0.bind
        (fun a => (GapRow.mk "ela" "FRPL" (some 0) (some 1) (some 1)).proficiency_group_1.map
          (fun b => a - b)) :=
  ⟨(C5_gap_table_six_rows_exact_identity assessW studentsW).1,
   (C5_gap_table_six_rows_exact_identity assessW studentsW).2 _ (by decide)⟩

/-- C6: in every row of the staffing ratio table, the ratio equals the
school's distinct-student count divided by its teacher FTE sum whenever
that sum is present and nonzero, and is the missing value (not an error,
not an infinity — the column is an `Option` and `none` is the only
non-numeric outcome) when the FTE sum is zero or absent. -/
theorem C6_staffing_ratio_defined_iff_nonzero_fte (student_school : List BridgeRow)
    (staffing : List StaffingRow) (educators : List EducatorRow) :
    ∀ row ∈ staffing_ratio_table student_school staffing educators,
      (∀ f : ℚ, row.teacher_fte = some f → f ≠ 0 →
        row.students_per_teacher_fte = row.n_students.map (fun c => c / f)) ∧
      ((row.teacher_fte = some 0 ∨ row.teacher_fte = none) →
        row.students_per_teacher_fte = none) := by
  intro row hrow
  simp only [staffing_ratio_table, List.mem_map] at hrow
  obtain ⟨k, hk, rfl⟩ := hrow
  constructor
  · intro f hf hf0
    have hf2 : (teacherFteBySchool staffing educators).lookup k = some f := hf
    cases hsc : (studentCountBySchool student_school).lookup k <;> simp [hsc, hf2, hf0]
  · intro hz
    have hz2 : (teacherFteBySchool staffing educators).lookup k = some 0 ∨
        (teacherFteBySchool staffing educators).lookup k = none := hz
    rcases hz2 with hz2 | hz2 <;>
      cases hsc : (studentCountBySchool student_school).lookup k <;> simp [hsc, hz2]

set_option maxRecDepth 100000 in
unseal Rat.mul Rat.inv Rat.add Rat.sub in
/-- Witness for C6: the spec's example — 100 students and 4.0 teacher FTE
yield a ratio of exactly 25. -/
theorem C6_staffing_ratio_defined_iff_nonzero_fte_witness :
    RatioRow.mk 1001 (some 100) (some 4) (some 25) ∈
      staffing_ratio_table (bridgeB 100) staffW educW ∧
    (RatioRow.mk 1001 (some 100) (some 4) (some 25)).students_per_teacher_fte =
      (RatioRow.mk 1001 (some 100) (some 4) (some 25)).n_students.map (fun c => c / 4) :=
  ⟨by decide,
   (C6_staffing_ratio_defined_iff_nonzero_fte (bridgeB 100) staffW educW _ (by decide)).1 4 rfl
     (by norm_num)⟩

/-- C7: the correlation scalar of `ratio_vs_proficiency` is computed from
the valid rows only (those with both the ratio and the proficiency
present — that filter is the very list the hypothesis counts), and
whenever fewer than 3 such rows exist it is the missing value `none`
(the function is total, and `none ≠ some 0`). -/
theorem C7_corr_undefined_below_three_valid_rows (ratio_tbl : List RatioRow)
    (assessments : List AssessmentRow) (student_school : List BridgeRow)
    (h : (((ratio_vs_proficiency ratio_tbl assessments student_school).1).filter
        (fun p => p.students_per_teacher_fte.isSome && p.avg_proficiency.isSome)).length < 3) :
    (ratio_vs_proficiency ratio_tbl assessments student_school).2 = none := by
  simp only [ratio_vs_proficiency] at h ⊢
  rw [if_neg]
  omega

/-- Witness for C7 at a table with two valid rows and no assessments. -/
theorem C7_corr_undefined_below_three_valid_rows_witness :
    (ratio_vs_proficiency ratioTblW [] []).2 = none :=
  C7_corr_undefined_below_three_valid_rows ratioTblW [] [] (by decide)

end K12




